import Mathlib

/-!
Verification of the gemini-proxy gateway (src/app.py, src/index.py,
src/server.py) against its natural-language specification.

The three Python modules are shallowly embedded: request handlers become
pure Lean functions from the inbound request data and the outcome of each
outbound call (modelled as an explicit `PostResult` value, since the
upstream services are out of scope) to an `HttpResponse` together with the
number of outbound network requests performed.  JSON values are modelled by
the inductive type `JVal`; the semantics of the Python dictionary/list
accessors used by the handlers (`.get`, `[0]`, `in`, iteration, slicing,
`str.strip`) are given by small total functions returning `Option`, where
`none` models a raised Python exception.

Numeric JSON leaves are modelled as integers; the only floating-point
values the code produces (wall-clock timestamps and durations, BirdNET
confidence formatting) are never observed by any verified property and are
represented by the placeholder `jnum 0` (marked at each use site).
-/

/-- JSON values, as produced by `request.get_json` / `response.json()`.
Numbers are modelled as integers (see module comment). -/
inductive JVal where
  | jnull
  | jbool (b : Bool)
  | jnum (n : Int)
  | jstr (s : String)
  | jarr (xs : List JVal)
  | jobj (fields : List (String × JVal))

/-- First binding of a key in a Python dict, modelled as an association
list (Python dicts have unique keys; the handlers only build such lists). -/
def lookupField : List (String × JVal) → String → Option JVal
  | [], _ => none
  | (k, x) :: rest, key => if k = key then some x else lookupField rest key

/-- Key membership for `k in d` on a dict. -/
def containsKey : List (String × JVal) → String → Bool
  | [], _ => false
  | (k, _) :: rest, key => k = key || containsKey rest key

/-- Python truthiness of a JSON value (`if x:` / `not x`). -/
def jTruthy : JVal → Bool
  | .jnull => false
  | .jbool b => b
  | .jnum n => n != 0
  | .jstr s => s.length != 0
  | .jarr xs => !xs.isEmpty
  | .jobj fs => !fs.isEmpty

/-- Prefix test on character lists (structural, kernel-reducible). -/
def charListPrefix : List Char → List Char → Bool
  | [], _ => true
  | _ :: _, [] => false
  | c :: cs, d :: ds => c = d && charListPrefix cs ds

/-- `pre` is a prefix of `s`. -/
def strStartsWith (pre s : String) : Bool := charListPrefix pre.toList s.toList

/-- Substring occurrence on character lists. -/
def containsSubList : List Char → List Char → Bool
  | [], needle => needle.isEmpty
  | hay :: t, needle => charListPrefix needle (hay :: t) || containsSubList t needle

/-- Substring test, for Python `sub in s` on strings. -/
def strContainsSub (s sub : String) : Bool := containsSubList s.toList sub.toList

/-- The whitespace characters Python's `str.strip`/`str.split` remove. -/
def isPyWS (c : Char) : Bool :=
  c = ' ' || c = '\t' || c = '\n' || c = '\r' || c = '\x0b' || c = '\x0c'

/-- Python `str.strip()` (ASCII whitespace; structural, kernel-reducible). -/
def stripStr (s : String) : String :=
  String.mk (((s.toList.dropWhile isPyWS).reverse.dropWhile isPyWS).reverse)

/-- ASCII `Char` lowering (Python `str.lower` on the ASCII range). -/
def charLower (c : Char) : Char :=
  if 65 ≤ c.toNat ∧ c.toNat ≤ 90 then Char.ofNat (c.toNat + 32) else c

/-- ASCII `str.lower()`. -/
def lowerStr (s : String) : String := String.mk (s.toList.map charLower)

/-- Python `str.split()`: split on whitespace runs, dropping empties. -/
def wordsAux : List Char → List Char → List (List Char)
  | [], acc => if acc.isEmpty then [] else [acc.reverse]
  | c :: rest, acc =>
    if isPyWS c then
      if acc.isEmpty then wordsAux rest [] else acc.reverse :: wordsAux rest []
    else wordsAux rest (c :: acc)

/-- `"_".join(words)`. -/
def joinUnderscore : List (List Char) → List Char
  | [] => []
  | [w] => w
  | w :: ws => w ++ '_' :: joinUnderscore ws

/-- `v.get(k, d)`: on a dict returns the binding or the default; on any
other value `.get` raises `AttributeError` (modelled as `none`). -/
def pyGetD (v : JVal) (k : String) (d : JVal) : Option JVal :=
  match v with
  | .jobj fs => some ((lookupField fs k).getD d)
  | _ => none

/-- `v[0]`: head of a list (raising `IndexError` on an empty list), first
character of a string, and a raised exception on every other value. -/
def pyIndexZero (v : JVal) : Option JVal :=
  match v with
  | .jarr (x :: _) => some x
  | .jarr [] => none
  | .jstr s =>
    match s.toList with
    | [] => none
    | c :: _ => some (.jstr (String.mk [c]))
  | _ => none

/-- `v[k]` with a string key: dict lookup (raising `KeyError` when the key
is absent) and a raised `TypeError` on every other value. -/
def pySubscript (v : JVal) (k : String) : Option JVal :=
  match v with
  | .jobj fs => lookupField fs k
  | _ => none

/-- `k in v`: key membership on a dict, substring test on a string,
element membership on a list, `TypeError` otherwise. -/
def pyContains (v : JVal) (k : String) : Option Bool :=
  match v with
  | .jobj fs => some (containsKey fs k)
  | .jstr s => some (strContainsSub s k)
  | .jarr xs => some (xs.any fun x => match x with | .jstr s => s = k | _ => false)
  | _ => none

/-- `for x in v`: the iterated elements (list elements, string characters,
dict keys), `TypeError` otherwise. -/
def pyIter (v : JVal) : Option (List JVal) :=
  match v with
  | .jarr xs => some xs
  | .jstr s => some (s.toList.map fun c => .jstr (String.mk [c]))
  | .jobj fs => some (fs.map fun kv => .jstr kv.1)
  | _ => none

/-- `v[:5]`: slicing, valid on lists and strings only. -/
def pySliceFive (v : JVal) : Option (List JVal) :=
  match v with
  | .jarr xs => some (xs.take 5)
  | .jstr s => some ((s.toList.take 5).map fun c => .jstr (String.mk [c]))
  | _ => none

/-- `f-string` formatting with the `.3f` spec: valid on numbers only
(`ValueError`/`TypeError` on strings, `None`, containers).  The produced
digits are never observed by any verified property. -/
def pyFmtThreeF : JVal → Option Unit
  | .jnum _ => some ()
  | _ => none

/-- `text.strip()`: defined on strings only (`AttributeError` otherwise).
Python also strips some further Unicode spaces; the handlers only ever
compare the result with the empty string. -/
def pyStrip : JVal → Option String
  | .jstr s => some (stripStr s)
  | _ => none

/-- Python falsiness of a request body field.  Body fields are modelled as
plain strings with the empty string standing for an absent field: a field
obtained with `data.get(...)` is `None` when absent and the handlers treat
`None` and `""` identically (`if not x`). -/
def falsyS (s : String) : Bool := s.length == 0

/-- An HTTP response as assembled by the handlers: status code, JSON body,
response headers. -/
structure HttpResponse where
  status : Nat
  body : JVal
  headers : List (String × String)

/-- Outcome of one outbound `requests.post`/`requests.get`: a timeout
(`requests.exceptions.Timeout`), another connection-level failure
(a `RequestException` that is neither `Timeout` nor `HTTPError`), or a
completed HTTP exchange with a status code and parsed JSON body. -/
inductive PostResult where
  | timeout
  | netError
  | resp (status : Nat) (body : JVal)

/-- `response.raise_for_status()` raises `HTTPError` exactly for 4xx/5xx. -/
def raisesForStatus (s : Nat) : Bool := 400 ≤ s

/-- `{"error": msg}` response body. -/
def errBody (msg : String) : JVal := .jobj [("error", .jstr msg)]

/-- Header lookup in a response. -/
def hLookup : List (String × String) → String → Option String
  | [], _ => none
  | (k, v) :: rest, key => if k = key then some v else hLookup rest key

/-- The CORS contract of the specification: wildcard origin, the three
allowed methods, and an allowed-headers list naming `Content-Type` first
(app.py and index.py additionally allow `Authorization`). -/
def hasCorsHeaders (r : HttpResponse) : Prop :=
  hLookup r.headers "Access-Control-Allow-Origin" = some "*" ∧
  hLookup r.headers "Access-Control-Allow-Methods" = some "GET,POST,OPTIONS" ∧
  ∃ v, hLookup r.headers "Access-Control-Allow-Headers" = some v ∧
    strStartsWith "Content-Type" v = true

instance (r : HttpResponse) : Decidable (hasCorsHeaders r) := by
  unfold hasCorsHeaders
  refine @instDecidableAnd _ _ _ (@instDecidableAnd _ _ _ ?_)
  exact match h : hLookup r.headers "Access-Control-Allow-Headers" with
    | none => .isFalse (by simp [h])
    | some v =>
      if hv : strStartsWith "Content-Type" v = true then
        .isTrue ⟨v, rfl, hv⟩
      else .isFalse (by rintro ⟨w, hw, hpw⟩; cases hw; exact hv hpw)

/-- Flask's default response for an exception that escapes a handler:
an HTML `500 Internal Server Error` page carrying none of the gateway's
CORS headers (the body text is a stand-in; no property observes it). -/
def flask500 : HttpResponse :=
  { status := 500, body := .jstr "Internal Server Error", headers := [] }

/-- Result of loading a module at process start: either the process is
serving requests (holding the configured key, possibly absent), or it
refused to start. -/
inductive StartupResult where
  | started (key : Option String)
  | failedFast (msg : String)

/-- The shared defensive `.get`-chain text extraction of app.py /generate,
app.py /analyze, index.py /generate, index.py /analyze and server.py
/analyze-audio:
`resp.get("candidates", [{}])[0].get("content", {}).get("parts", [{}])[0].get("text", "")`. -/
def chainTextVal (v : JVal) : Option JVal := do
  let c ← pyGetD v "candidates" (.jarr [.jobj []])
  let c0 ← pyIndexZero c
  let ct ← pyGetD c0 "content" (.jobj [])
  let ps ← pyGetD ct "parts" (.jarr [.jobj []])
  let p0 ← pyIndexZero ps
  pyGetD p0 "text" (.jstr "")

/-- The guarded primary-path extraction shared verbatim by server.py
/generate and /analyze-video: `text = ""` then
`candidates = result.get("candidates", [])`, and only if `candidates`,
`parts` are truthy is `parts[0].get("text", "")` taken. -/
def extractPrimaryText (result : JVal) : Option JVal := do
  let cands ← pyGetD result "candidates" (.jarr [])
  if jTruthy cands then
    let first ← pyIndexZero cands
    let content ← pyGetD first "content" (.jobj [])
    let ps ← pyGetD content "parts" (.jarr [])
    if jTruthy ps then
      let p0 ← pyIndexZero ps
      pyGetD p0 "text" (.jstr "")
    else pure (.jstr "")
  else pure (.jstr "")

/-- Inner loop of the /analyze-video fallback: scan a candidate's parts,
stopping (`break`) at the first part containing a `"text"` key and
returning its value; `some none` means no part had one. -/
def scanPartsFound : List JVal → Option (Option JVal)
  | [] => some none
  | p :: rest => do
    let c ← pyContains p "text"
    if c then
      let t ← pySubscript p "text"
      pure (some t)
    else scanPartsFound rest

/-- Outer loop of the /analyze-video fallback: for each candidate holding
`content.parts`, take that candidate's first `"text"` entry; stop as soon
as the accumulated text is truthy. -/
def scanCands : List JVal → JVal → Option JVal
  | [], t => some t
  | c :: rest, t => do
    let hasC ← pyContains c "content"
    let t' ←
      if hasC then do
        let cc ← pySubscript c "content"
        let hasP ← pyContains cc "parts"
        if hasP then do
          let pv ← pySubscript cc "parts"
          let parts ← pyIter pv
          let r ← scanPartsFound parts
          pure (r.getD t)
        else pure t
      else pure t
    if jTruthy t' then pure t' else scanCands rest t'

/-- server.py /analyze-video text extraction: the primary walk, followed —
when the primary text is falsy and `result.get("candidates")` is a list —
by the candidate/part scan. -/
def extractVideoText (result : JVal) : Option JVal := do
  let tv ← extractPrimaryText result
  let cv ← pyGetD result "candidates" .jnull
  if jTruthy tv then pure tv
  else
    match cv with
    | .jarr xs => scanCands xs tv
    | _ => pure tv

/-- Modelled from `werkzeug.utils.secure_filename` (ASCII case, the only
case the verified properties exercise): path separators become spaces,
whitespace runs are joined with underscores, characters outside
`[A-Za-z0-9_.-]` are removed, and leading/trailing `.`/`_` are stripped. -/
def secureFilename (s : String) : String :=
  let cs := s.toList.map (fun c => if c = '/' || c = '\\' then ' ' else c)
  let joined := joinUnderscore (wordsAux cs [])
  let kept := joined.filter
    (fun c => c.isAlpha || c.isDigit || c = '_' || c = '.' || c = '-')
  String.mk (((kept.dropWhile (fun c => c = '.' || c = '_')).reverse.dropWhile
    (fun c => c = '.' || c = '_')).reverse)

/-- `os.path.splitext(name)[1]` for a plain file name (no directory part):
the extension starting at the last dot, except that a run of leading dots
never starts an extension. -/
def splitextExt (s : String) : String :=
  let cs := s.toList
  let lead := (cs.takeWhile (fun c => c = '.')).length
  let body := cs.drop lead
  let extRev := body.reverse.takeWhile (fun c => c ≠ '.')
  if extRev.length = body.length then ""
  else String.mk ('.' :: extRev.reverse)

/-- app.py `allowed_audio_file`: extension allow-list `.mp3`, `.wav`,
`.m4a` (compared lowercase). -/
def allowed_audio_file (filename : String) : Bool :=
  let ext := lowerStr (splitextExt filename)
  ext = ".mp3" || ext = ".wav" || ext = ".m4a"

/-- The multipart upload in `request.files["file"]`: werkzeug filename
(empty string for an absent/empty name, which Python treats as falsy),
declared MIME type, and stream size in bytes. -/
structure AudioFile where
  filename : String
  mimetype : String
  size : Nat

namespace App

/-- app.py `cors`: wraps a JSON payload with the three CORS headers. -/
def cors (payload : JVal) (code : Nat) : HttpResponse :=
  { status := code
    body := payload
    headers :=
      [("Access-Control-Allow-Origin", "*"),
       ("Access-Control-Allow-Methods", "GET,POST,OPTIONS"),
       ("Access-Control-Allow-Headers", "Content-Type,Authorization")] }

/-- app.py module load: `GEMINI_API_KEY = os.getenv("GEMINI_API_KEY")`
followed by `if not GEMINI_API_KEY: raise EnvironmentError(...)` — the key
is read once and a falsy value aborts startup. -/
def startup (env : Option String) : StartupResult :=
  match env with
  | none => .failedFast "GEMINI_API_KEY environment variable is not set"
  | some s =>
    if falsyS s then .failedFast "GEMINI_API_KEY environment variable is not set"
    else .started (some s)

/-- app.py `GET /ping`. -/
def ping (isOptions : Bool) : HttpResponse × Nat :=
  if isOptions then (cors (.jobj []) 200, 0)
  else (cors (.jobj [("status", .jstr "alive")]) 200, 0)

/-- app.py `GET /`. -/
def home (isOptions : Bool) : HttpResponse × Nat :=
  if isOptions then (cors (.jobj []) 200, 0)
  else
    (cors (.jobj
      [("status", .jstr "✅ Server is running"),
       ("endpoints", .jarr [.jstr "/ping", .jstr "/generate", .jstr "/analyze"])]) 200, 0)

/-- app.py `POST /generate`.  `call` is the outcome of the single outbound
`requests.post` to the generation API; the second component counts the
outbound requests actually performed.  Exception texts interpolated into
error messages are elided (no verified property observes them). -/
def generate (isOptions : Bool) (prompt image_b64 : String) (call : PostResult) :
    HttpResponse × Nat :=
  if isOptions then (cors (.jobj []) 200, 0)
  else if falsyS prompt || falsyS image_b64 then
    (cors (errBody "Prompt or image not provided") 400, 0)
  else if 4000000 < image_b64.length then
    (cors (errBody "Image too large") 413, 0)
  else
    match call with
    | .timeout => (cors (errBody "Gemini error") 502, 1)
    | .netError => (cors (errBody "Gemini error") 502, 1)
    | .resp s b =>
      if raisesForStatus s then (cors (errBody "Gemini error") 502, 1)
      else
        match chainTextVal b with
        | none => (cors (errBody "Server error") 500, 1)
        | some tv =>
          match pyStrip tv with
          | none => (cors (errBody "Server error") 500, 1)
          | some ts =>
            if falsyS ts then (cors (errBody "Empty response from Gemini") 502, 1)
            else (cors (.jobj [("response", tv)]) 200, 1)

/-- app.py `POST /analyze`: multipart validation, the BirdNET upload, and
the Gemini summarize step.  The prompt-building block between the two
calls catches its own exceptions and only affects the prompt text, which
no verified property observes; it is therefore not reproduced. -/
def analyze (isOptions : Bool) (file : Option AudioFile)
    (birdnet gemini : PostResult) : HttpResponse × Nat :=
  if isOptions then (cors (.jobj []) 200, 0)
  else
    match file with
    | none => (cors (errBody "Audio file missing (field name must be 'file')") 400, 0)
    | some af =>
      let filename := secureFilename (if falsyS af.filename then "audio.m4a" else af.filename)
      if !allowed_audio_file filename then
        (cors (errBody ("Unsupported file format: " ++ splitextExt filename ++
          ". Use .mp3, .wav, or .m4a")) 400, 0)
      else if 10 * 1024 * 1024 < af.size then
        (cors (errBody "Audio file too large (>10 MB)") 413, 0)
      else
        match birdnet with
        | .timeout => (cors (errBody "BirdNET error") 502, 1)
        | .netError => (cors (errBody "BirdNET error") 502, 1)
        | .resp s bj =>
          if raisesForStatus s then (cors (errBody "BirdNET error") 502, 1)
          else
            match gemini with
            | .timeout => (cors (errBody "Gemini error") 502, 2)
            | .netError => (cors (errBody "Gemini error") 502, 2)
            | .resp gs gb =>
              if raisesForStatus gs then (cors (errBody "Gemini error") 502, 2)
              else
                match chainTextVal gb with
                | none => (cors (errBody "Gemini error") 500, 2)
                | some tv =>
                  (cors (.jobj [("raw", bj), ("summary", tv)]) 200, 2)

end App

namespace Index

/-- index.py `cors`: identical to app.py's except for the space after the
comma in the allowed-headers list. -/
def cors (payload : JVal) (code : Nat) : HttpResponse :=
  { status := code
    body := payload
    headers :=
      [("Access-Control-Allow-Origin", "*"),
       ("Access-Control-Allow-Methods", "GET,POST,OPTIONS"),
       ("Access-Control-Allow-Headers", "Content-Type, Authorization")] }

/-- index.py module load: `GEMINI_API_KEY = os.getenv("GEMINI_API_KEY")`
with no check whatsoever — the process starts serving regardless. -/
def startup (env : Option String) : StartupResult := .started env

/-- index.py `GET /ping`. -/
def ping (isOptions : Bool) : HttpResponse × Nat :=
  if isOptions then (cors (.jobj []) 200, 0)
  else (cors (.jobj [("status", .jstr "alive")]) 200, 0)

/-- index.py `GET /`. -/
def home (isOptions : Bool) : HttpResponse × Nat :=
  if isOptions then (cors (.jobj []) 200, 0)
  else
    (cors (.jobj
      [("status", .jstr "✅ Server is running"),
       ("endpoints", .jarr [.jstr "/ping", .jstr "/generate", .jstr "/analyze"])]) 200, 0)

/-- index.py `POST /generate`: body-for-body the app.py handler, except
that the single `except Exception` clause maps every failure — timeouts,
connection errors, upstream HTTP errors and parse errors alike — to
`500 Server error`. -/
def generate (isOptions : Bool) (prompt image_b64 : String) (call : PostResult) :
    HttpResponse × Nat :=
  if isOptions then (cors (.jobj []) 200, 0)
  else if falsyS prompt || falsyS image_b64 then
    (cors (errBody "Prompt or image not provided") 400, 0)
  else if 4000000 < image_b64.length then
    (cors (errBody "Image too large") 413, 0)
  else
    match call with
    | .timeout => (cors (errBody "Server error") 500, 1)
    | .netError => (cors (errBody "Server error") 500, 1)
    | .resp s b =>
      if raisesForStatus s then (cors (errBody "Server error") 500, 1)
      else
        match chainTextVal b with
        | none => (cors (errBody "Server error") 500, 1)
        | some tv =>
          match pyStrip tv with
          | none => (cors (errBody "Server error") 500, 1)
          | some ts =>
            if falsyS ts then (cors (errBody "Empty response from Gemini") 502, 1)
            else (cors (.jobj [("response", tv)]) 200, 1)

/-- Outcome of the local `birdnet_analyzer.analyze` subprocess in
index.py /analyze: `fail` covers a non-zero exit code, a missing output
file and an unparseable output file (all caught by the surrounding
`try`), `ok` carries the JSON loaded from the output file. -/
inductive BirdnetRun where
  | fail
  | ok (output : JVal)

/-- index.py /analyze, lines 129–141: the summary/prompt preparation that
sits OUTSIDE every `try` block.  `none` models a Python exception that
escapes the handler (e.g. `.get` on a non-dict output, slicing a dict,
`.3f`-formatting a non-numeric confidence).  The prompt text itself is not
observed by any verified property and is not reproduced. -/
def summaryPrep (birdnet_json : JVal) : Option Unit := do
  let preds ← pyGetD birdnet_json "predictions" (.jarr [])
  if jTruthy preds then
    let ps ← pySliceFive preds
    ps.forM fun p => do
      let conf ← pyGetD p "confidence" (.jnum 0)
      pyFmtThreeF conf
      let _ ← pyGetD p "species" (.jstr "?")
      pure ()
  else pure ()

/-- index.py `POST /analyze`: multipart presence check, the local BirdNET
run, the unprotected summary preparation (an escaping exception yields
Flask's bare 500), and the Gemini summarize call, whose `except Exception`
maps every failure to `502 Gemini error`.  The count tallies outbound
HTTP requests (the BirdNET subprocess is local). -/
def analyze (isOptions : Bool) (filePresent : Bool)
    (birdnet : BirdnetRun) (gemini : PostResult) : HttpResponse × Nat :=
  if isOptions then (cors (.jobj []) 200, 0)
  else if !filePresent then
    (cors (errBody "Audio file missing (field name must be 'file')") 400, 0)
  else
    match birdnet with
    | .fail => (cors (errBody "BirdNET-Analyzer error") 502, 0)
    | .ok birdnet_json =>
      match summaryPrep birdnet_json with
      | none => (flask500, 0)
      | some _ =>
        match gemini with
        | .timeout => (cors (errBody "Gemini error") 502, 1)
        | .netError => (cors (errBody "Gemini error") 502, 1)
        | .resp gs gb =>
          if raisesForStatus gs then (cors (errBody "Gemini error") 502, 1)
          else
            match chainTextVal gb with
            | none => (cors (errBody "Gemini error") 502, 1)
            | some tv =>
              (cors (.jobj [("raw", birdnet_json), ("summary", tv)]) 200, 1)

end Index

namespace Server

/-- server.py `cors`: allowed headers list only `Content-Type`. -/
def cors (payload : JVal) (code : Nat) : HttpResponse :=
  { status := code
    body := payload
    headers :=
      [("Access-Control-Allow-Origin", "*"),
       ("Access-Control-Allow-Methods", "GET,POST,OPTIONS"),
       ("Access-Control-Allow-Headers", "Content-Type")] }

/-- server.py module load: `GEMINI_API_KEY = os.getenv("GEMINI_API_KEY")`
with no check — the process starts serving regardless (the module-level
`ensure_ffmpeg()` warm-up never aborts startup either). -/
def startup (env : Option String) : StartupResult := .started env

/-- The three candidate directories `ensure_ffmpeg` tries, in order. -/
inductive FPath where
  | varTask
  | tmpDir
  | curDir
deriving DecidableEq

/-- The environment one `ensure_ffmpeg` run executes against, per
candidate directory: whether `os.makedirs` succeeds, whether the binary
download (`requests.get` + write) completes, whether the post-download
setup (`os.symlink`/`os.chmod`) succeeds, and whether the `-version`
smoke test exits 0 (false also covers a raised subprocess error). -/
structure FFEnv where
  mkdirOk : FPath → Bool
  dlOk : FPath → Bool
  chmodOk : FPath → Bool
  smokeOk : FPath → Bool

/-- The process-wide mutable state behind `ensure_ffmpeg`: the
`_ffmpeg_initialized` flag, which directories currently hold both
binaries (`ffmpeg` and the `ffprobe` link), and `_ffmpeg_path`. -/
structure FFState where
  initialized : Bool
  fsHas : FPath → Bool
  ffmpegPath : Option FPath

/-- Filesystem after writing the binaries at `p`. -/
def fsAdd (f : FPath → Bool) (p : FPath) : FPath → Bool :=
  fun q => if q = p then true else f q

/-- State at process start: flag down, no binaries, no path. -/
def ffInit : FFState := ⟨false, fun _ => false, none⟩

/-- The `for ffmpeg_dir in possible_paths` loop of `ensure_ffmpeg`:
per directory, a failed `makedirs` skips the iteration (leaving
`_ffmpeg_path` untouched); otherwise `_ffmpeg_path` is set, existing
binaries end the loop, and a completed download ends the loop unless the
post-download setup raises, in which case the next directory is tried.
Returns the new state and the number of completed binary downloads. -/
def tryPaths (env : FFEnv) : List FPath → FFState → FFState × Nat
  | [], s => (s, 0)
  | p :: rest, s =>
    if env.mkdirOk p then
      let s1 := { s with ffmpegPath := some p }
      if s1.fsHas p then (s1, 0)
      else if env.dlOk p then
        let s2 := { s1 with fsHas := fsAdd s1.fsHas p }
        if env.chmodOk p then (s2, 1)
        else
          let (s3, d) := tryPaths env rest s2
          (s3, d + 1)
      else tryPaths env rest s1
    else tryPaths env rest s

/-- server.py `ensure_ffmpeg`: short-circuits on `_ffmpeg_initialized`,
otherwise runs the directory loop, checks that `_ffmpeg_path` is set and
present, runs the smoke test, and flips the flag only on success.
Returns the boolean result, the new state and the number of completed
binary downloads (each an outbound network request). -/
def ensure_ffmpeg (env : FFEnv) (s : FFState) : Bool × FFState × Nat :=
  if s.initialized then (true, s, 0)
  else
    let r := tryPaths env [.varTask, .tmpDir, .curDir] s
    match r.1.ffmpegPath with
    | none => (false, r.1, r.2)
    | some q =>
      if r.1.fsHas q then
        if env.smokeOk q then (true, { r.1 with initialized := true }, r.2)
        else (false, r.1, r.2)
      else (false, r.1, r.2)

/-- server.py `GET /ping` (timestamp placeholder: wall clock, unobserved). -/
def ping (isOptions : Bool) (ffReady : Bool) : HttpResponse × Nat :=
  if isOptions then (cors (.jobj []) 200, 0)
  else
    (cors (.jobj
      [("status", .jstr "alive"),
       ("timestamp", .jnum 0),
       ("ffmpeg_ready", .jbool ffReady)]) 200, 0)

/-- server.py `GET /` (timestamp placeholder: wall clock, unobserved). -/
def home (isOptions : Bool) (ffReady : Bool) : HttpResponse × Nat :=
  if isOptions then (cors (.jobj []) 200, 0)
  else
    (cors (.jobj
      [("status", .jstr "✅ Server is running"),
       ("ffmpeg_ready", .jbool ffReady),
       ("timestamp", .jnum 0)]) 200, 0)

/-- Outcome of the base64-decode + pydub decode/resample/re-encode chain
in /convert-audio (external libraries, modelled as an input): `fail` is
any raised exception, `ok` carries the original and converted byte sizes
and the base64 WAV text. -/
inductive ConvOutcome where
  | fail
  | ok (originalSize convertedSize : Nat) (wavBase64 : String)

/-- server.py `POST /convert-audio`.  Note the order faithful to the
source: `ensure_ffmpeg()` — which may download the binary — runs BEFORE
any request-field validation.  Returns the response, the number of
outbound network requests (the binary downloads), and the ffmpeg state
left behind. -/
def convert_audio (isOptions : Bool) (env : FFEnv) (st : FFState)
    (audio_data _filename : String) (conv : ConvOutcome) :
    HttpResponse × Nat × FFState :=
  if isOptions then (cors (.jobj []) 200, 0, st)
  else
    let r := ensure_ffmpeg env st
    let ok := r.1
    let st' := r.2.1
    let d := r.2.2
    if !ok then
      (cors (.jobj
        [("error", .jstr "FFmpeg not available"),
         ("message", .jstr "Audio conversion temporarily unavailable")]) 503, d, st')
    else if falsyS audio_data then
      (cors (errBody "Audio data not provided") 400, d, st')
    else if 8000000 < audio_data.length then
      (cors (errBody "Audio file too large (max 8MB)") 413, d, st')
    else
      match conv with
      | .fail =>
        (cors (.jobj
          [("error", .jstr "Conversion failed"),
           ("message", .jstr "Please try with a different audio format")]) 500, d, st')
      | .ok o c wav =>
        (cors (.jobj
          [("success", .jbool true),
           ("wav_data", .jstr wav),
           ("original_size", .jnum (Int.ofNat o)),
           ("converted_size", .jnum (Int.ofNat c)),
           ("message", .jstr "Audio converted to WAV successfully")]) 200, d, st')

/-- server.py `POST /generate` (handler `generate_image`).  Exception
texts and the `debug` sub-object of the 502 body (which only echoes the
raw upstream response) are elided; no verified property observes them.
`processing_time` is a wall-clock placeholder. -/
def generate_image (isOptions : Bool) (prompt image_b64 : String)
    (call : PostResult) : HttpResponse × Nat :=
  if isOptions then (cors (.jobj []) 200, 0)
  else if falsyS prompt then (cors (errBody "Prompt not provided") 400, 0)
  else if falsyS image_b64 then (cors (errBody "Image not provided") 400, 0)
  else if 3500000 < image_b64.length then
    (cors (errBody "Image too large (max 3.5MB)") 413, 0)
  else
    match call with
    | .timeout => (cors (errBody "AI service timeout - try again") 504, 1)
    | .netError => (cors (errBody "Service error") 500, 1)
    | .resp s b =>
      if raisesForStatus s then
        if s = 429 then (cors (errBody "Rate limit exceeded - try again later") 429, 1)
        else if s = 403 then (cors (errBody "API key invalid or quota exceeded") 403, 1)
        else if s = 503 then
          (cors (errBody "AI service temporarily overloaded - try again in a minute") 503, 1)
        else (cors (errBody ("AI service error: " ++ toString s)) s, 1)
      else
        match extractPrimaryText b with
        | none => (cors (errBody "Service error") 500, 1)
        | some tv =>
          match pyStrip tv with
          | none => (cors (errBody "Service error") 500, 1)
          | some ts =>
            if falsyS ts then (cors (errBody "Empty response from AI service") 502, 1)
            else
              (cors (.jobj
                [("response", tv), ("processing_time", .jnum 0)]) 200, 1)

/-- server.py `POST /analyze-audio` (handler `analyze_audio`): the
summarize-given-classification shape.  Its `except` ladder maps a timeout
to 504 but EVERY `HTTPError` to `503 AI service temporarily unavailable`
and every other exception to `503 Service temporarily unavailable`. -/
def analyze_audio (isOptions : Bool) (prompt birdnet_results : String)
    (call : PostResult) : HttpResponse × Nat :=
  if isOptions then (cors (.jobj []) 200, 0)
  else if falsyS prompt then (cors (errBody "Prompt not provided") 400, 0)
  else if falsyS birdnet_results then
    (cors (errBody "BirdNET results not provided") 400, 0)
  else
    match call with
    | .timeout => (cors (errBody "AI service timeout - try again") 504, 1)
    | .netError => (cors (errBody "Service temporarily unavailable - try again") 503, 1)
    | .resp s b =>
      if raisesForStatus s then
        (cors (errBody "AI service temporarily unavailable") 503, 1)
      else
        match chainTextVal b with
        | none => (cors (errBody "Service temporarily unavailable - try again") 503, 1)
        | some tv =>
          match pyStrip tv with
          | none => (cors (errBody "Service temporarily unavailable - try again") 503, 1)
          | some ts =>
            if falsyS ts then (cors (errBody "Empty response from AI service") 502, 1)
            else
              (cors (.jobj
                [("response", tv), ("processing_time", .jnum 0)]) 200, 1)

/-- The `except requests.exceptions.HTTPError` ladder of /analyze-video:
429 and 413 get fixed messages, 400 and the rest carry upstream detail
text (elided stand-in) and pass the upstream status through. -/
def videoHttpErrorMap (s : Nat) (n : Nat) : HttpResponse × Nat :=
  if s = 429 then (cors (errBody "Rate limit exceeded - try again later") 429, n)
  else if s = 413 then (cors (errBody "Video file too large for processing") 413, n)
  else if s = 400 then
    (cors (.jobj
      [("error", .jstr "Invalid video format or API error"),
       ("details", .jstr "")]) 400, n)
  else
    (cors (.jobj
      [("error", .jstr ("AI service error: " ++ toString s)),
       ("details", .jstr "")]) s, n)

/-- Parsing tail of /analyze-video on a non-error upstream response:
primary-plus-fallback extraction, `strip` emptiness check, success body.
The `debug` sub-object of the 502 body is elided (locals echo only). -/
def videoParse (b : JVal) (n : Nat) : HttpResponse × Nat :=
  match extractVideoText b with
  | none =>
    (cors (.jobj
      [("error", .jstr "Video processing error"),
       ("message", .jstr "")]) 500, n)
  | some tv =>
    match pyStrip tv with
    | none =>
      (cors (.jobj
        [("error", .jstr "Video processing error"),
         ("message", .jstr "")]) 500, n)
    | some ts =>
      if falsyS ts then (cors (errBody "Empty response from AI service") 502, n)
      else
        (cors (.jobj
          [("response", tv), ("processing_time", .jnum 0)]) 200, n)

/-- server.py `POST /analyze-video` (handler `analyze_video`).  `call1`
is the outcome of the first upstream post; when its status is exactly 400
the handler retries once with an alternative payload shape, and `call2`
is that second outcome (unused otherwise).  A non-200 status outside
4xx/5xx falls through `raise_for_status` into the parsing tail. -/
def analyze_video (isOptions : Bool) (prompt video_b64 _mime_type : String)
    (call1 call2 : PostResult) : HttpResponse × Nat :=
  if isOptions then (cors (.jobj []) 200, 0)
  else if falsyS prompt then (cors (errBody "Prompt not provided") 400, 0)
  else if falsyS video_b64 then (cors (errBody "Video data not provided") 400, 0)
  else if 4500000 < video_b64.length then
    (cors (.jobj
      [("error", .jstr "Video file too large (max 4.5MB)"),
       ("size", .jnum (Int.ofNat video_b64.length)),
       ("max_allowed", .jnum 4500000)]) 413, 0)
  else if video_b64.length < 1000 then
    (cors (errBody "Video file too small") 400, 0)
  else
    match call1 with
    | .timeout => (cors (errBody "AI service timeout - try again") 504, 1)
    | .netError =>
      (cors (.jobj
        [("error", .jstr "Video processing error"),
         ("message", .jstr "")]) 500, 1)
    | .resp s1 b1 =>
      if s1 = 200 then videoParse b1 1
      else if s1 = 400 then
        match call2 with
        | .timeout => (cors (errBody "AI service timeout - try again") 504, 2)
        | .netError =>
          (cors (.jobj
            [("error", .jstr "Video processing error"),
             ("message", .jstr "")]) 500, 2)
        | .resp s2 b2 =>
          if raisesForStatus s2 then videoHttpErrorMap s2 2
          else videoParse b2 2
      else if raisesForStatus s1 then videoHttpErrorMap s1 1
      else videoParse b1 1

/-- server.py `GET /health`: the best-effort upstream probe only shapes
the `gemini_api` body field; the status is always 200 (with CORS). -/
def health_check (isOptions : Bool) (ffReady : Bool) (probe : PostResult) :
    HttpResponse × Nat :=
  if isOptions then (cors (.jobj []) 200, 0)
  else
    let geminiStatus :=
      match probe with
      | .timeout => "unavailable"
      | .netError => "unavailable"
      | .resp s _ => if s = 200 then "available" else "unavailable"
    (cors (.jobj
      [("status", .jstr "healthy"),
       ("timestamp", .jnum 0),
       ("ffmpeg_ready", .jbool ffReady),
       ("gemini_api", .jstr geminiStatus),
       ("service", .jstr "nature_identifier_api"),
       ("features", .jarr [.jstr "image", .jstr "audio", .jstr "video"])]) 200, 1)

end Server

/-- A generation-API response part: `none` is a part without a `"text"`
key, `some t` a part `{"text": t}`. -/
def mkPart : Option String → JVal
  | none => .jobj []
  | some t => .jobj [("text", .jstr t)]

/-- A generation-API candidate with the given parts. -/
def mkCand (ps : List (Option String)) : JVal :=
  .jobj [("content", .jobj [("parts", .jarr (ps.map mkPart))])]

/-- A well-formed generation-API response with the given candidates. -/
def mkResp (cs : List (List (Option String))) : JVal :=
  .jobj [("candidates", .jarr (cs.map mkCand))]

/-- What the `.get`-chain extraction yields on a well-formed response:
the first candidate's first part's text (defaulting to the empty string
when the part has no text), and a raised `IndexError` when the candidate
or part list is empty. -/
def chainResult : List (List (Option String)) → Option JVal
  | [] => none
  | ps :: _ =>
    match ps with
    | [] => none
    | t :: _ => some (.jstr (t.getD ""))

/-- What the guarded primary-path extraction yields on a well-formed
response: the first candidate's first part's text, or the empty string. -/
def primStr : List (List (Option String)) → String
  | [] => ""
  | ps :: _ =>
    match ps with
    | [] => ""
    | t :: _ => t.getD ""

/-- First part of a candidate carrying a `"text"` key at all. -/
def firstSomeText : List (Option String) → Option String
  | [] => none
  | none :: rest => firstSomeText rest
  | some t :: _ => some t

/-- The /analyze-video fallback scan on a well-formed response: walk the
candidates in order; a candidate's first `"text"` entry (possibly empty)
replaces the accumulated text; stop at the first non-empty result. -/
def specScanVideo : List (List (Option String)) → String → String
  | [], cur => cur
  | ps :: rest, cur =>
    let cur' := (firstSomeText ps).getD cur
    if cur'.length != 0 then cur' else specScanVideo rest cur'

/-- The complete /analyze-video extraction on a well-formed response:
the primary text when non-empty, otherwise the fallback scan. -/
def specVideoText (cs : List (List (Option String))) : String :=
  let pr := primStr cs
  if pr.length != 0 then pr else specScanVideo cs pr

/-- A response whose only candidate carries exactly the text `t` at the
primary path (the stub-upstream shape from the specification's scenario). -/
def singleTextResp (t : String) : JVal := mkResp [[some t]]

/-- A string of `n` copies of `a` (for oversized-payload inputs). -/
def bigStr (n : Nat) : String := String.mk (List.replicate n 'a')

/-- An `ensure_ffmpeg` environment in which every step succeeds in every
directory (the first directory's download completes and smoke-tests). -/
def ffEnvAllOk : Server.FFEnv :=
  { mkdirOk := fun _ => true
    dlOk := fun _ => true
    chmodOk := fun _ => true
    smokeOk := fun _ => true }

/-- An `ensure_ffmpeg` environment in which the post-download
`symlink`/`chmod` step raises in the first directory (whose binary would
nevertheless pass the smoke test), while the second directory's binary
fails its smoke test. -/
def ffEnvChmodFails : Server.FFEnv :=
  { mkdirOk := fun _ => true
    dlOk := fun _ => true
    chmodOk := fun p => match p with | .varTask => false | _ => true
    smokeOk := fun p => match p with | .varTask => true | _ => false }

/-- An upstream response whose first candidate's first part has no text
while the second candidate carries `"A robin."`: the primary walk yields
the empty string and only the fallback scan finds the text. -/
def fallbackResp : JVal := mkResp [[none], [some "A robin."]]

lemma bigStr_length (n : Nat) : (bigStr n).length = n := by
  show (List.replicate n 'a').length = n
  exact List.length_replicate n 'a'

lemma chainTextVal_mkResp (cs : List (List (Option String))) :
    chainTextVal (mkResp cs) = chainResult cs := by
  cases cs with
  | nil => rfl
  | cons ps rest =>
    cases ps with
    | nil => rfl
    | cons t ts => cases t <;> rfl

lemma extractPrimaryText_mkResp (cs : List (List (Option String))) :
    extractPrimaryText (mkResp cs) = some (.jstr (primStr cs)) := by
  cases cs with
  | nil => rfl
  | cons ps rest =>
    cases ps with
    | nil => rfl
    | cons t ts => cases t <;> rfl

lemma scanPartsFound_mkPart (ps : List (Option String)) :
    scanPartsFound (ps.map mkPart) = some ((firstSomeText ps).map JVal.jstr) := by
  induction ps with
  | nil => rfl
  | cons t rest ih =>
    cases t with
    | none =>
      show scanPartsFound (mkPart none :: rest.map mkPart) = _
      simp only [scanPartsFound, mkPart, pyContains, containsKey, Option.bind_eq_bind,
        Option.some_bind]
      simpa [firstSomeText] using ih
    | some s => rfl

lemma scanCands_mkCand (cs : List (List (Option String))) (cur : String) :
    scanCands (cs.map mkCand) (.jstr cur) = some (.jstr (specScanVideo cs cur)) := by
  induction cs generalizing cur with
  | nil => rfl
  | cons ps rest ih =>
    show scanCands (mkCand ps :: rest.map mkCand) (.jstr cur) = _
    cases h : firstSomeText ps with
    | none =>
      by_cases hc : cur.length != 0
      · simp [scanCands, mkCand, pyContains, containsKey, pySubscript, lookupField,
          pyIter, scanPartsFound_mkPart, specScanVideo, jTruthy, h, hc]
      · simp only [bne_iff_ne, ne_eq, not_not] at hc
        simp [scanCands, mkCand, pyContains, containsKey, pySubscript, lookupField,
          pyIter, scanPartsFound_mkPart, specScanVideo, jTruthy, h, hc, ih]
    | some t =>
      by_cases hc : t.length != 0
      · simp [scanCands, mkCand, pyContains, containsKey, pySubscript, lookupField,
          pyIter, scanPartsFound_mkPart, specScanVideo, jTruthy, h, hc]
      · simp only [bne_iff_ne, ne_eq, not_not] at hc
        simp [scanCands, mkCand, pyContains, containsKey, pySubscript, lookupField,
          pyIter, scanPartsFound_mkPart, specScanVideo, jTruthy, h, hc, ih]

lemma extractVideoText_mkResp (cs : List (List (Option String))) :
    extractVideoText (mkResp cs) = some (.jstr (specVideoText cs)) := by
  unfold extractVideoText
  rw [extractPrimaryText_mkResp]
  by_cases h : (primStr cs).length != 0
  · simp [mkResp, pyGetD, lookupField, jTruthy, h, specVideoText]
  · simp only [bne_iff_ne, ne_eq, not_not] at h
    have hs := scanCands_mkCand cs (primStr cs)
    simp [mkResp, pyGetD, lookupField, jTruthy, h, specVideoText, hs]

lemma hasCors_app_cors (p : JVal) (c : Nat) : hasCorsHeaders (App.cors p c) :=
  ⟨rfl, rfl, "Content-Type,Authorization", rfl, by decide⟩

lemma hasCors_index_cors (p : JVal) (c : Nat) : hasCorsHeaders (Index.cors p c) :=
  ⟨rfl, rfl, "Content-Type, Authorization", rfl, by decide⟩

lemma hasCors_server_cors (p : JVal) (c : Nat) : hasCorsHeaders (Server.cors p c) :=
  ⟨rfl, rfl, "Content-Type", rfl, by decide⟩

lemma app_ping_cors (o : Bool) : hasCorsHeaders (App.ping o).1 := by
  unfold App.ping
  try dsimp only
  repeat' split
  all_goals exact hasCors_app_cors _ _

lemma app_home_cors (o : Bool) : hasCorsHeaders (App.home o).1 := by
  unfold App.home
  try dsimp only
  repeat' split
  all_goals exact hasCors_app_cors _ _

lemma app_generate_cors (o : Bool) (p i : String) (c : PostResult) :
    hasCorsHeaders (App.generate o p i c).1 := by
  unfold App.generate
  try dsimp only
  repeat' split
  all_goals exact hasCors_app_cors _ _

lemma app_analyze_cors (o : Bool) (f : Option AudioFile) (b g : PostResult) :
    hasCorsHeaders (App.analyze o f b g).1 := by
  unfold App.analyze
  try dsimp only
  repeat' split
  all_goals exact hasCors_app_cors _ _

lemma index_ping_cors (o : Bool) : hasCorsHeaders (Index.ping o).1 := by
  unfold Index.ping
  try dsimp only
  repeat' split
  all_goals exact hasCors_index_cors _ _

lemma index_home_cors (o : Bool) : hasCorsHeaders (Index.home o).1 := by
  unfold Index.home
  try dsimp only
  repeat' split
  all_goals exact hasCors_index_cors _ _

lemma index_generate_cors (o : Bool) (p i : String) (c : PostResult) :
    hasCorsHeaders (Index.generate o p i c).1 := by
  unfold Index.generate
  try dsimp only
  repeat' split
  all_goals exact hasCors_index_cors _ _

lemma index_analyze_cors (o fp : Bool) (b : Index.BirdnetRun) (g : PostResult) :
    hasCorsHeaders (Index.analyze o fp b g).1 ∨ (Index.analyze o fp b g).1 = flask500 := by
  unfold Index.analyze
  try dsimp only
  repeat' split
  all_goals first
    | exact Or.inl (hasCors_index_cors _ _)
    | exact Or.inr rfl

lemma server_ping_cors (o fr : Bool) : hasCorsHeaders (Server.ping o fr).1 := by
  unfold Server.ping
  try dsimp only
  repeat' split
  all_goals exact hasCors_server_cors _ _

lemma server_home_cors (o fr : Bool) : hasCorsHeaders (Server.home o fr).1 := by
  unfold Server.home
  try dsimp only
  repeat' split
  all_goals exact hasCors_server_cors _ _

lemma server_convert_audio_cors (o : Bool) (env : Server.FFEnv) (st : Server.FFState)
    (a fn : String) (cv : Server.ConvOutcome) :
    hasCorsHeaders (Server.convert_audio o env st a fn cv).1 := by
  unfold Server.convert_audio
  try dsimp only
  repeat' split
  all_goals exact hasCors_server_cors _ _

lemma server_generate_image_cors (o : Bool) (p i : String) (c : PostResult) :
    hasCorsHeaders (Server.generate_image o p i c).1 := by
  unfold Server.generate_image
  try dsimp only
  repeat' split
  all_goals exact hasCors_server_cors _ _

lemma server_analyze_audio_cors (o : Bool) (p r : String) (c : PostResult) :
    hasCorsHeaders (Server.analyze_audio o p r c).1 := by
  unfold Server.analyze_audio
  try dsimp only
  repeat' split
  all_goals exact hasCors_server_cors _ _

lemma server_videoHttpErrorMap_cors (s n : Nat) :
    hasCorsHeaders (Server.videoHttpErrorMap s n).1 := by
  unfold Server.videoHttpErrorMap
  try dsimp only
  repeat' split
  all_goals exact hasCors_server_cors _ _

lemma server_videoParse_cors (b : JVal) (n : Nat) :
    hasCorsHeaders (Server.videoParse b n).1 := by
  unfold Server.videoParse
  try dsimp only
  repeat' split
  all_goals exact hasCors_server_cors _ _

lemma server_analyze_video_cors (o : Bool) (p v m : String) (c1 c2 : PostResult) :
    hasCorsHeaders (Server.analyze_video o p v m c1 c2).1 := by
  unfold Server.analyze_video
  try dsimp only
  repeat' split
  all_goals first
    | exact hasCors_server_cors _ _
    | exact server_videoHttpErrorMap_cors _ _
    | exact server_videoParse_cors _ _

lemma server_health_check_cors (o fr : Bool) (pr : PostResult) :
    hasCorsHeaders (Server.health_check o fr pr).1 := by
  unfold Server.health_check
  try dsimp only
  repeat' split
  all_goals exact hasCors_server_cors _ _

lemma falsyS_false_of_length {s : String} (h : 0 < s.length) : falsyS s = false := by
  simp only [falsyS, beq_eq_false_iff_ne, ne_eq]
  omega

lemma raisesForStatus_false {s : Nat} (h : s < 400) : raisesForStatus s = false := by
  simp only [raisesForStatus, decide_eq_false_iff_not]
  omega

lemma ensure_ffmpeg_true_initialized (env : Server.FFEnv) (s : Server.FFState) :
    (Server.ensure_ffmpeg env s).1 = true →
    (Server.ensure_ffmpeg env s).2.1.initialized = true := by
  by_cases hinit : s.initialized = true
  · intro _
    simp [Server.ensure_ffmpeg, hinit]
  · unfold Server.ensure_ffmpeg
    simp only [hinit, if_false, Bool.false_eq_true]
    cases hq : (Server.tryPaths env [.varTask, .tmpDir, .curDir] s).1.ffmpegPath with
    | none => simp
    | some q =>
      by_cases hfs : (Server.tryPaths env [.varTask, .tmpDir, .curDir] s).1.fsHas q = true
      · by_cases hsm : env.smokeOk q = true
        · simp [hfs, hsm]
        · simp [hfs, hsm]
      · simp [hfs]

/-- C1: a payload exceeding the endpoint's size ceiling (4,000,000 base64
characters for app.py /generate, 3,500,000 for server.py /generate,
4,500,000 for /analyze-video) is rejected with HTTP 413 before any
outbound request is made (outbound count 0), for any request carrying a
non-empty prompt. -/
theorem c1_oversized_payload_413 :
    ∀ (p s m : String) (call call2 : PostResult), falsyS p = false →
      (4000000 < s.length →
        (App.generate false p s call).1.status = 413 ∧
        (App.generate false p s call).2 = 0) ∧
      (3500000 < s.length →
        (Server.generate_image false p s call).1.status = 413 ∧
        (Server.generate_image false p s call).2 = 0) ∧
      (4500000 < s.length →
        (Server.analyze_video false p s m call call2).1.status = 413 ∧
        (Server.analyze_video false p s m call call2).2 = 0) := by
  intro p s m call call2 hp
  refine ⟨fun h => ?_, fun h => ?_, fun h => ?_⟩ <;>
    have hs : falsyS s = false := falsyS_false_of_length (by omega)
  · constructor <;> simp [App.generate, App.cors, hp, hs, h]
  · constructor <;> simp [Server.generate_image, Server.cors, hp, hs, h]
  · constructor <;> simp [Server.analyze_video, Server.cors, hp, hs, h]

/-- C1 witness: a 4,500,001-character payload with prompt `"describe"`
is rejected with 413 and no outbound call by all three handlers. -/
theorem c1_oversized_payload_413_witness :
    falsyS "describe" = false ∧
    4000000 < (bigStr 4500001).length ∧
    3500000 < (bigStr 4500001).length ∧
    4500000 < (bigStr 4500001).length ∧
    (App.generate false "describe" (bigStr 4500001) .timeout).1.status = 413 ∧
    (App.generate false "describe" (bigStr 4500001) .timeout).2 = 0 ∧
    (Server.generate_image false "describe" (bigStr 4500001) .timeout).1.status = 413 ∧
    (Server.generate_image false "describe" (bigStr 4500001) .timeout).2 = 0 ∧
    (Server.analyze_video false "describe" (bigStr 4500001) "video/mp4"
      .timeout .timeout).1.status = 413 ∧
    (Server.analyze_video false "describe" (bigStr 4500001) "video/mp4"
      .timeout .timeout).2 = 0 := by
  have hl : (bigStr 4500001).length = 4500001 := bigStr_length _
  have hp : falsyS "describe" = false := by decide
  have h1 : 4000000 < (bigStr 4500001).length := by omega
  have h2 : 3500000 < (bigStr 4500001).length := by omega
  have h3 : 4500000 < (bigStr 4500001).length := by omega
  obtain ⟨a, b, c⟩ :=
    c1_oversized_payload_413 "describe" (bigStr 4500001) "video/mp4" .timeout .timeout hp
  exact ⟨hp, h1, h2, h3, (a h1).1, (a h1).2, (b h2).1, (b h2).2, (c h3).1, (c h3).2⟩

/-- C3 counterexample: with `GEMINI_API_KEY` absent from the environment,
index.py and server.py both start serving (key `None`) instead of failing
fast at startup — refuting the claim for two of the three modules. -/
theorem c3_counterexample :
    Index.startup none = StartupResult.started none ∧
    Server.startup none = StartupResult.started none :=
  ⟨rfl, rfl⟩

/-- C3 amended: the key is read once at module load in all three modules,
but only app.py fails fast when it is absent or empty; index.py and
server.py start serving regardless, holding whatever the environment
gave. -/
theorem c3_fail_fast_amended :
    App.startup none =
      StartupResult.failedFast "GEMINI_API_KEY environment variable is not set" ∧
    (∀ s : String, falsyS s = false → App.startup (some s) = .started (some s)) ∧
    (∀ e, Index.startup e = .started e) ∧
    (∀ e, Server.startup e = .started e) := by
  refine ⟨rfl, fun s hs => ?_, fun e => rfl, fun e => rfl⟩
  simp [App.startup, hs]

/-- C3 amended witness: app.py starts normally with a non-empty key. -/
theorem c3_fail_fast_amended_witness :
    falsyS "key" = false ∧ App.startup (some "key") = .started (some "key") :=
  ⟨by decide, c3_fail_fast_amended.2.1 "key" (by decide)⟩

/-- C10: /analyze-video rejects any provided (non-empty) base64 video
payload shorter than 1000 characters with HTTP 400, body
`Video file too small`, before any outbound call. -/
theorem c10_video_too_small_400 :
    ∀ (p v m : String) (call1 call2 : PostResult),
      falsyS p = false → falsyS v = false → v.length < 1000 →
      (Server.analyze_video false p v m call1 call2).1 =
        Server.cors (errBody "Video file too small") 400 ∧
      (Server.analyze_video false p v m call1 call2).2 = 0 := by
  intro p v m c1 c2 hp hv hlen
  have h45 : ¬ (4500000 < v.length) := by omega
  constructor <;> simp [Server.analyze_video, hp, hv, h45, hlen]

/-- C10 witness: a five-character video payload is rejected with the
`Video file too small` 400 response and no outbound call. -/
theorem c10_video_too_small_400_witness :
    falsyS "describe" = false ∧ falsyS "vvvvv" = false ∧ "vvvvv".length < 1000 ∧
    (Server.analyze_video false "describe" "vvvvv" "video/mp4" .timeout .timeout).1 =
      Server.cors (errBody "Video file too small") 400 ∧
    (Server.analyze_video false "describe" "vvvvv" "video/mp4" .timeout .timeout).2 = 0 := by
  refine ⟨by decide, by decide, by decide, ?_, ?_⟩
  · exact (c10_video_too_small_400 "describe" "vvvvv" "video/mp4" .timeout .timeout
      (by decide) (by decide) (by decide)).1
  · exact (c10_video_too_small_400 "describe" "vvvvv" "video/mp4" .timeout .timeout
      (by decide) (by decide) (by decide)).2

/-- C7 counterexample: in a fixed environment where the post-download
setup step fails in the first directory (whose binary would pass the
smoke test) and the second directory's binary fails its smoke test, the
first `ensure_ffmpeg` call downloads twice and returns `false`, while the
second call returns `true` — two sequential calls perform two downloads
and end in different ready states, refuting the claim's idempotence
clause. -/
theorem c7_counterexample :
    (Server.ensure_ffmpeg ffEnvChmodFails Server.ffInit).1 = false ∧
    (Server.ensure_ffmpeg ffEnvChmodFails
      (Server.ensure_ffmpeg ffEnvChmodFails Server.ffInit).2.1).1 = true ∧
    (Server.ensure_ffmpeg ffEnvChmodFails Server.ffInit).2.2 +
      (Server.ensure_ffmpeg ffEnvChmodFails
        (Server.ensure_ffmpeg ffEnvChmodFails Server.ffInit).2.1).2.2 = 2 :=
  ⟨by decide, by decide, by decide⟩

/-- C7 amended: once `ensure_ffmpeg` has returned `true`, every later
call — under any environment — returns `true` immediately, leaves the
state unchanged, and performs no download; but when a call returns
`false`, a later call may download again and may return a different
result (see the counterexample). -/
theorem c7_ensure_ffmpeg_amended :
    ∀ (env env2 : Server.FFEnv) (s : Server.FFState),
      (Server.ensure_ffmpeg env s).1 = true →
      Server.ensure_ffmpeg env2 (Server.ensure_ffmpeg env s).2.1 =
        (true, (Server.ensure_ffmpeg env s).2.1, 0) := by
  intro env env2 s h
  have hi := ensure_ffmpeg_true_initialized env s h
  generalize hX : (Server.ensure_ffmpeg env s).2.1 = X at hi ⊢
  simp [Server.ensure_ffmpeg, hi]

/-- C7 amended witness: after a fully successful first call (one
download), the second call returns `true` with no download and an
unchanged state. -/
theorem c7_ensure_ffmpeg_amended_witness :
    (Server.ensure_ffmpeg ffEnvAllOk Server.ffInit).1 = true ∧
    (Server.ensure_ffmpeg ffEnvAllOk Server.ffInit).2.2 = 1 ∧
    Server.ensure_ffmpeg ffEnvAllOk (Server.ensure_ffmpeg ffEnvAllOk Server.ffInit).2.1 =
      (true, (Server.ensure_ffmpeg ffEnvAllOk Server.ffInit).2.1, 0) :=
  ⟨by decide, by decide, c7_ensure_ffmpeg_amended ffEnvAllOk ffEnvAllOk Server.ffInit (by decide)⟩

/-- C9 counterexample: a /convert-audio request with `audio_data` missing,
arriving while the transcoder is uninitialized in an environment where
the bootstrap succeeds, is answered 400 only AFTER one outbound network
request (the ffmpeg binary download) — refuting the claim that no
outbound network activity of any kind precedes the 400. -/
theorem c9_counterexample :
    (Server.convert_audio false ffEnvAllOk Server.ffInit "" "audio"
      Server.ConvOutcome.fail).1.status = 400 ∧
    (Server.convert_audio false ffEnvAllOk Server.ffInit "" "audio"
      Server.ConvOutcome.fail).2.1 = 1 :=
  ⟨by decide, by decide⟩

/-- C9 amended: every handler except /convert-audio answers a request
with a missing required field with HTTP 400 and zero outbound requests;
/convert-audio first runs the ffmpeg bootstrap — performing its outbound
downloads — and only then returns 400 (or 503 when the bootstrap
fails). -/
theorem c9_missing_field_amended :
    (∀ (p i : String) (c : PostResult), falsyS p = true ∨ falsyS i = true →
      (App.generate false p i c).1.status = 400 ∧ (App.generate false p i c).2 = 0) ∧
    (∀ (p i : String) (c : PostResult), falsyS p = true →
      (Server.generate_image false p i c).1.status = 400 ∧
      (Server.generate_image false p i c).2 = 0) ∧
    (∀ (p i : String) (c : PostResult), falsyS p = false → falsyS i = true →
      (Server.generate_image false p i c).1.status = 400 ∧
      (Server.generate_image false p i c).2 = 0) ∧
    (∀ (p r : String) (c : PostResult), falsyS p = true ∨ falsyS r = true →
      (Server.analyze_audio false p r c).1.status = 400 ∧
      (Server.analyze_audio false p r c).2 = 0) ∧
    (∀ (p v m : String) (c1 c2 : PostResult), falsyS p = true ∨ falsyS v = true →
      (Server.analyze_video false p v m c1 c2).1.status = 400 ∧
      (Server.analyze_video false p v m c1 c2).2 = 0) ∧
    (∀ (b g : PostResult),
      (App.analyze false none b g).1.status = 400 ∧ (App.analyze false none b g).2 = 0) ∧
    (∀ (env : Server.FFEnv) (st : Server.FFState) (fn a : String)
        (cv : Server.ConvOutcome), falsyS a = true →
      (Server.convert_audio false env st a fn cv).2.1 =
        (Server.ensure_ffmpeg env st).2.2 ∧
      (Server.convert_audio false env st a fn cv).1.status =
        (if (Server.ensure_ffmpeg env st).1 = true then 400 else 503)) := by
  refine ⟨?_, ?_, ?_, ?_, ?_, ?_, ?_⟩
  · rintro p i c (h | h)
    · constructor <;> simp [App.generate, App.cors, h]
    · constructor <;> simp [App.generate, App.cors, h]
  · intro p i c h
    constructor <;> simp [Server.generate_image, Server.cors, h]
  · intro p i c hp h
    constructor <;> simp [Server.generate_image, Server.cors, hp, h]
  · rintro p r c (h | h)
    · constructor <;> simp [Server.analyze_audio, Server.cors, h]
    · by_cases hp : falsyS p = true
      · constructor <;> simp [Server.analyze_audio, Server.cors, hp]
      · constructor <;> simp [Server.analyze_audio, Server.cors, hp, h]
  · rintro p v m c1 c2 (h | h)
    · constructor <;> simp [Server.analyze_video, Server.cors, h]
    · by_cases hp : falsyS p = true
      · constructor <;> simp [Server.analyze_video, Server.cors, hp]
      · constructor <;> simp [Server.analyze_video, Server.cors, hp, h]
  · intro b g
    constructor <;> simp [App.analyze, App.cors]
  · intro env st fn a cv h
    by_cases hok : (Server.ensure_ffmpeg env st).1 = true
    · constructor <;> simp [Server.convert_audio, Server.cors, hok, h]
    · have hok2 : (Server.ensure_ffmpeg env st).1 = false := by
        cases hb : (Server.ensure_ffmpeg env st).1
        · rfl
        · exact absurd hb hok
      constructor <;> simp [Server.convert_audio, Server.cors, hok2, h]

/-- C9 amended witness: with the prompt missing, app.py /generate answers
400 with zero outbound requests; with `audio_data` missing and a
successful bootstrap, /convert-audio answers 400 after one download. -/
theorem c9_missing_field_amended_witness :
    (falsyS "" = true ∨ falsyS "img" = true) ∧
    (App.generate false "" "img" .timeout).1.status = 400 ∧
    (App.generate false "" "img" .timeout).2 = 0 ∧
    (Server.convert_audio false ffEnvAllOk Server.ffInit "" "audio"
      Server.ConvOutcome.fail).2.1 = (Server.ensure_ffmpeg ffEnvAllOk Server.ffInit).2.2 := by
  have h : falsyS "" = true ∨ falsyS "img" = true := Or.inl (by decide)
  obtain ⟨a, -, -, -, -, -, g⟩ := c9_missing_field_amended
  exact ⟨h, (a "" "img" .timeout h).1, (a "" "img" .timeout h).2,
    (g ffEnvAllOk Server.ffInit "audio" "" Server.ConvOutcome.fail (by decide)).1⟩

/-- C2 counterexample: an upstream timeout on app.py /generate (a valid
request) is answered 502, not 504 — the `except RequestException` clause
catches `Timeout` — refuting the claim for app.py's endpoints. -/
theorem c2_counterexample :
    (App.generate false "describe" "aW1n" PostResult.timeout).1.status = 502 ∧
    ¬ (App.generate false "describe" "aW1n" PostResult.timeout).1.status = 504 :=
  ⟨by decide, by decide⟩

/-- C2 amended: only server.py's /generate, /analyze-audio and
/analyze-video map an upstream timeout to 504; app.py /generate and both
legs of app.py /analyze map it to 502, and index.py /generate maps it
to 500. -/
theorem c2_timeout_mapping_amended :
    (∀ (p i : String), falsyS p = false → falsyS i = false →
      (i.length ≤ 3500000 →
        (Server.generate_image false p i .timeout).1.status = 504) ∧
      (i.length ≤ 4000000 →
        (App.generate false p i .timeout).1.status = 502 ∧
        (Index.generate false p i .timeout).1.status = 500)) ∧
    (∀ (p v m : String) (c2 : PostResult), falsyS p = false →
      1000 ≤ v.length → v.length ≤ 4500000 →
      (Server.analyze_video false p v m .timeout c2).1.status = 504) ∧
    (∀ (p r : String), falsyS p = false → falsyS r = false →
      (Server.analyze_audio false p r .timeout).1.status = 504) ∧
    (∀ (af : AudioFile) (b : JVal) (s : Nat) (g : PostResult),
      allowed_audio_file (secureFilename
        (if falsyS af.filename then "audio.m4a" else af.filename)) = true →
      af.size ≤ 10485760 → s < 400 →
      (App.analyze false (some af) .timeout g).1.status = 502 ∧
      (App.analyze false (some af) (.resp s b) .timeout).1.status = 502) := by
  refine ⟨?_, ?_, ?_, ?_⟩
  · intro p i hp hi
    refine ⟨fun h => ?_, fun h => ?_⟩
    · have h35 : ¬ (3500000 < i.length) := by omega
      simp [Server.generate_image, Server.cors, hp, hi, h35]
    · have h40 : ¬ (4000000 < i.length) := by omega
      constructor
      · simp [App.generate, App.cors, hp, hi, h40]
      · simp [Index.generate, Index.cors, hp, hi, h40]
  · intro p v m c2 hp h1k h45
    have hv : falsyS v = false := falsyS_false_of_length (by omega)
    have h45n : ¬ (4500000 < v.length) := by omega
    have h1kn : ¬ (v.length < 1000) := by omega
    simp [Server.analyze_video, Server.cors, hp, hv, h45n, h1kn]
  · intro p r hp hr
    simp [Server.analyze_audio, Server.cors, hp, hr]
  · intro af b s g hall hsize hs
    have hbig : ¬ (10 * 1024 * 1024 < af.size) := by omega
    have hrs : raisesForStatus s = false := raisesForStatus_false hs
    constructor
    · simp [App.analyze, App.cors, hall, hbig]
    · simp [App.analyze, App.cors, hall, hbig, hrs]

/-- C2 amended witness: concrete valid requests exercising each timeout
mapping — server.py 504, app.py 502, index.py 500, /analyze 502. -/
theorem c2_timeout_mapping_amended_witness :
    falsyS "describe" = false ∧ falsyS "aW1n" = false ∧
    (Server.generate_image false "describe" "aW1n" .timeout).1.status = 504 ∧
    (App.generate false "describe" "aW1n" .timeout).1.status = 502 ∧
    (Index.generate false "describe" "aW1n" .timeout).1.status = 500 ∧
    (Server.analyze_video false "describe" (bigStr 1000) "video/mp4"
      .timeout .timeout).1.status = 504 ∧
    (Server.analyze_audio false "describe" "robin 0.91" .timeout).1.status = 504 ∧
    (App.analyze false (some ⟨"bird.wav", "audio/wav", 2048⟩)
      (.resp 200 (.jobj [])) .timeout).1.status = 502 := by
  have hp : falsyS "describe" = false := by decide
  have hi : falsyS "aW1n" = false := by decide
  have hl : (bigStr 1000).length = 1000 := bigStr_length _
  obtain ⟨a, b, c, d⟩ := c2_timeout_mapping_amended
  refine ⟨hp, hi, ((a "describe" "aW1n" hp hi).1 (by decide)),
    ((a "describe" "aW1n" hp hi).2 (by decide)).1,
    ((a "describe" "aW1n" hp hi).2 (by decide)).2,
    b "describe" (bigStr 1000) "video/mp4" .timeout hp (by omega) (by omega),
    c "describe" "robin 0.91" hp (by decide),
    (d ⟨"bird.wav", "audio/wav", 2048⟩ (.jobj []) 200 .timeout (by decide)
      (by decide) (by decide)).2⟩

/-- C5 counterexample: an upstream 429 on /analyze-audio (a valid
request) is answered 503, not 429 — its `except HTTPError` collapses
every upstream HTTP error to 503 — refuting the claim's coverage of
every generation-API endpoint. -/
theorem c5_counterexample :
    (Server.analyze_audio false "describe" "robin 0.91"
      (.resp 429 (.jobj []))).1.status = 503 ∧
    ¬ (Server.analyze_audio false "describe" "robin 0.91"
      (.resp 429 (.jobj []))).1.status = 429 :=
  ⟨by decide, by decide⟩

/-- C5 amended: server.py /generate and /analyze-video pass upstream 429
through as 429 and 403 as 403; /analyze-audio collapses both to 503;
app.py /generate maps both to 502 and index.py /generate to 500. -/
theorem c5_status_passthrough_amended :
    (∀ (p i : String) (b : JVal), falsyS p = false → falsyS i = false →
      i.length ≤ 3500000 →
      (Server.generate_image false p i (.resp 429 b)).1.status = 429 ∧
      (Server.generate_image false p i (.resp 403 b)).1.status = 403 ∧
      (App.generate false p i (.resp 429 b)).1.status = 502 ∧
      (App.generate false p i (.resp 403 b)).1.status = 502 ∧
      (Index.generate false p i (.resp 429 b)).1.status = 500 ∧
      (Index.generate false p i (.resp 403 b)).1.status = 500) ∧
    (∀ (p v m : String) (b : JVal) (c2 : PostResult), falsyS p = false →
      1000 ≤ v.length → v.length ≤ 4500000 →
      (Server.analyze_video false p v m (.resp 429 b) c2).1.status = 429 ∧
      (Server.analyze_video false p v m (.resp 403 b) c2).1.status = 403) ∧
    (∀ (p r : String) (b : JVal), falsyS p = false → falsyS r = false →
      (Server.analyze_audio false p r (.resp 429 b)).1.status = 503 ∧
      (Server.analyze_audio false p r (.resp 403 b)).1.status = 503) := by
  refine ⟨?_, ?_, ?_⟩
  · intro p i b hp hi hlen
    have h35 : ¬ (3500000 < i.length) := by omega
    have h40 : ¬ (4000000 < i.length) := by omega
    refine ⟨?_, ?_, ?_, ?_, ?_, ?_⟩ <;>
      simp [Server.generate_image, App.generate, Index.generate,
        Server.cors, App.cors, Index.cors, hp, hi, h35, h40, raisesForStatus]
  · intro p v m b c2 hp h1k h45
    have hv : falsyS v = false := falsyS_false_of_length (by omega)
    have h45n : ¬ (4500000 < v.length) := by omega
    have h1kn : ¬ (v.length < 1000) := by omega
    constructor <;>
      simp [Server.analyze_video, Server.videoHttpErrorMap, Server.cors,
        hp, hv, h45n, h1kn, raisesForStatus]
  · intro p r b hp hr
    constructor <;>
      simp [Server.analyze_audio, Server.cors, hp, hr, raisesForStatus]

/-- C5 amended witness: the mappings at a concrete valid request. -/
theorem c5_status_passthrough_amended_witness :
    falsyS "describe" = false ∧ falsyS "aW1n" = false ∧
    (Server.generate_image false "describe" "aW1n" (.resp 429 (.jobj []))).1.status = 429 ∧
    (Server.generate_image false "describe" "aW1n" (.resp 403 (.jobj []))).1.status = 403 ∧
    (App.generate false "describe" "aW1n" (.resp 429 (.jobj []))).1.status = 502 ∧
    (Index.generate false "describe" "aW1n" (.resp 429 (.jobj []))).1.status = 500 ∧
    (Server.analyze_video false "describe" (bigStr 1000) "video/mp4"
      (.resp 429 (.jobj [])) .timeout).1.status = 429 ∧
    (Server.analyze_audio false "describe" "robin 0.91"
      (.resp 429 (.jobj []))).1.status = 503 := by
  have hp : falsyS "describe" = false := by decide
  have hi : falsyS "aW1n" = false := by decide
  have hl : (bigStr 1000).length = 1000 := bigStr_length _
  obtain ⟨a, b, c⟩ := c5_status_passthrough_amended
  obtain ⟨a1, a2, a3, -, a5, -⟩ := a "describe" "aW1n" (.jobj []) hp hi (by decide)
  exact ⟨hp, hi, a1, a2, a3, a5,
    (b "describe" (bigStr 1000) "video/mp4" (.jobj []) .timeout hp
      (by omega) (by omega)).1,
    (c "describe" "robin 0.91" (.jobj []) hp (by decide)).1⟩

lemma specVideoText_single (t : String) : specVideoText [[some t]] = t := by
  by_cases h : t.length != 0 <;>
    simp [specVideoText, specScanVideo, firstSomeText, primStr, h]

/-- C4 counterexample: with BirdNET succeeding and the Gemini summarize
call returning 200 with an empty text at the primary path, app.py
/analyze answers 200 with the empty summary instead of 502 — the
summarize step has no emptiness check — refuting the claim's coverage of
the /analyze summarize step. -/
theorem c4_counterexample :
    (App.analyze false (some ⟨"bird.wav", "audio/wav", 2048⟩)
      (.resp 200 (.jobj [])) (.resp 200 (singleTextResp ""))).1.status = 200 ∧
    ¬ (App.analyze false (some ⟨"bird.wav", "audio/wav", 2048⟩)
      (.resp 200 (.jobj [])) (.resp 200 (singleTextResp ""))).1.status = 502 :=
  ⟨by decide, by decide⟩

/-- C4 amended: a 2xx upstream response whose extracted text is empty or
whitespace-only yields 502 in /generate (app.py, index.py, server.py),
/analyze-audio and /analyze-video; but the summarize step of app.py
/analyze performs no emptiness check and returns 200 carrying the blank
summary. -/
theorem c4_upstream_empty_amended :
    ∀ t : String, stripStr t = "" →
      (∀ (p i : String), falsyS p = false → falsyS i = false → i.length ≤ 3500000 →
        (App.generate false p i (.resp 200 (singleTextResp t))).1.status = 502 ∧
        (Index.generate false p i (.resp 200 (singleTextResp t))).1.status = 502 ∧
        (Server.generate_image false p i (.resp 200 (singleTextResp t))).1.status = 502) ∧
      (∀ (p r : String), falsyS p = false → falsyS r = false →
        (Server.analyze_audio false p r (.resp 200 (singleTextResp t))).1.status = 502) ∧
      (∀ (p v m : String) (c2 : PostResult), falsyS p = false →
        1000 ≤ v.length → v.length ≤ 4500000 →
        (Server.analyze_video false p v m
          (.resp 200 (singleTextResp t)) c2).1.status = 502) ∧
      (∀ (af : AudioFile) (b : JVal) (s : Nat),
        allowed_audio_file (secureFilename
          (if falsyS af.filename then "audio.m4a" else af.filename)) = true →
        af.size ≤ 10485760 → s < 400 →
        (App.analyze false (some af) (.resp s b)
          (.resp 200 (singleTextResp t))).1.status = 200) := by
  intro t ht
  have ht2 : falsyS (stripStr t) = true := by rw [ht]; rfl
  refine ⟨?_, ?_, ?_, ?_⟩
  · intro p i hp hi hlen
    have h35 : ¬ (3500000 < i.length) := by omega
    have h40 : ¬ (4000000 < i.length) := by omega
    refine ⟨?_, ?_, ?_⟩ <;>
      simp [App.generate, Index.generate, Server.generate_image,
        App.cors, Index.cors, Server.cors, hp, hi, h35, h40, raisesForStatus,
        singleTextResp, chainTextVal_mkResp, chainResult,
        extractPrimaryText_mkResp, primStr, pyStrip, ht2]
  · intro p r hp hr
    simp [Server.analyze_audio, Server.cors, hp, hr, raisesForStatus,
      singleTextResp, chainTextVal_mkResp, chainResult, pyStrip, ht2]
  · intro p v m c2 hp h1k h45
    have hv : falsyS v = false := falsyS_false_of_length (by omega)
    have h45n : ¬ (4500000 < v.length) := by omega
    have h1kn : ¬ (v.length < 1000) := by omega
    simp [Server.analyze_video, Server.videoParse, Server.cors, hp, hv, h45n, h1kn,
      singleTextResp, extractVideoText_mkResp, specVideoText_single, pyStrip, ht2]
  · intro af b s hall hsize hs
    have hbig : ¬ (10 * 1024 * 1024 < af.size) := by omega
    have hs400 : ¬ (400 ≤ s) := by omega
    simp [App.analyze, App.cors, hall, hbig, hs400, raisesForStatus,
      singleTextResp, chainTextVal_mkResp, chainResult]

/-- C4 amended witness: the whitespace-only text `"  "` produces 502 on
the five checking handlers and 200 on the /analyze summarize step. -/
theorem c4_upstream_empty_amended_witness :
    stripStr "  " = "" ∧
    (App.generate false "describe" "aW1n"
      (.resp 200 (singleTextResp "  "))).1.status = 502 ∧
    (Index.generate false "describe" "aW1n"
      (.resp 200 (singleTextResp "  "))).1.status = 502 ∧
    (Server.generate_image false "describe" "aW1n"
      (.resp 200 (singleTextResp "  "))).1.status = 502 ∧
    (Server.analyze_audio false "describe" "robin 0.91"
      (.resp 200 (singleTextResp "  "))).1.status = 502 ∧
    (Server.analyze_video false "describe" (bigStr 1000) "video/mp4"
      (.resp 200 (singleTextResp "  ")) .timeout).1.status = 502 ∧
    (App.analyze false (some ⟨"bird.wav", "audio/wav", 2048⟩)
      (.resp 200 (.jobj [])) (.resp 200 (singleTextResp "  "))).1.status = 200 := by
  have ht : stripStr "  " = "" := by decide
  have hl : (bigStr 1000).length = 1000 := bigStr_length _
  obtain ⟨a, b, c, d⟩ := c4_upstream_empty_amended "  " ht
  obtain ⟨a1, a2, a3⟩ := a "describe" "aW1n" (by decide) (by decide) (by decide)
  exact ⟨ht, a1, a2, a3, b "describe" "robin 0.91" (by decide) (by decide),
    c "describe" (bigStr 1000) "video/mp4" .timeout (by decide) (by omega) (by omega),
    d ⟨"bird.wav", "audio/wav", 2048⟩ (.jobj []) 200 (by decide) (by decide) (by decide)⟩

/-- C6 counterexample: a valid /analyze request to index.py whose BirdNET
output file holds a JSON array makes the unprotected summary-preparation
code raise (`.get` on a non-dict), so Flask's default 500 — carrying no
CORS headers — is returned, refuting the claim that every response
carries them. -/
theorem c6_counterexample :
    (Index.analyze false true (Index.BirdnetRun.ok (.jarr []))
      PostResult.timeout).1 = flask500 ∧
    ¬ hasCorsHeaders flask500 :=
  ⟨rfl, by decide⟩

/-- C6 amended: every response assembled by app.py's and server.py's
handlers, and by index.py's /ping, / and /generate, carries the CORS
headers (`*` origin, `GET,POST,OPTIONS`, allowed headers starting with
`Content-Type`); index.py /analyze also does so except on its
uncaught-exception path (summary preparation outside any `try`), where
the framework's bare 500 without CORS headers is produced. -/
theorem c6_cors_amended :
    (∀ o, hasCorsHeaders (App.ping o).1) ∧
    (∀ o, hasCorsHeaders (App.home o).1) ∧
    (∀ o p i c, hasCorsHeaders (App.generate o p i c).1) ∧
    (∀ o f b g, hasCorsHeaders (App.analyze o f b g).1) ∧
    (∀ o, hasCorsHeaders (Index.ping o).1) ∧
    (∀ o, hasCorsHeaders (Index.home o).1) ∧
    (∀ o p i c, hasCorsHeaders (Index.generate o p i c).1) ∧
    (∀ o fp b g, hasCorsHeaders (Index.analyze o fp b g).1 ∨
      (Index.analyze o fp b g).1 = flask500) ∧
    (∀ o fr, hasCorsHeaders (Server.ping o fr).1) ∧
    (∀ o fr, hasCorsHeaders (Server.home o fr).1) ∧
    (∀ o env st a fn cv, hasCorsHeaders (Server.convert_audio o env st a fn cv).1) ∧
    (∀ o p i c, hasCorsHeaders (Server.generate_image o p i c).1) ∧
    (∀ o p r c, hasCorsHeaders (Server.analyze_audio o p r c).1) ∧
    (∀ o p v m c1 c2, hasCorsHeaders (Server.analyze_video o p v m c1 c2).1) ∧
    (∀ o fr pr, hasCorsHeaders (Server.health_check o fr pr).1) :=
  ⟨app_ping_cors, app_home_cors, app_generate_cors, app_analyze_cors,
   index_ping_cors, index_home_cors, index_generate_cors, index_analyze_cors,
   server_ping_cors, server_home_cors, server_convert_audio_cors,
   server_generate_image_cors, server_analyze_audio_cors,
   server_analyze_video_cors, server_health_check_cors⟩

/-- C8 counterexample: on a response whose first candidate's first part
has no text but whose second candidate carries `"A robin."`, app.py
/generate and server.py /generate declare the result empty (502) without
scanning, while the fallback scan — implemented only in /analyze-video —
does find the text; refuting the claim that every handler falls back. -/
theorem c8_counterexample :
    (App.generate false "describe" "aW1n" (.resp 200 fallbackResp)).1.status = 502 ∧
    (Server.generate_image false "describe" "aW1n"
      (.resp 200 fallbackResp)).1.status = 502 ∧
    extractVideoText fallbackResp = some (.jstr "A robin.") ∧
    (Server.analyze_video false "describe" (bigStr 1000) "video/mp4"
      (.resp 200 fallbackResp) .timeout).1.status = 200 := by
  have hv : extractVideoText fallbackResp = some (.jstr "A robin.") := by
    have h := extractVideoText_mkResp [[none], [some "A robin."]]
    have h2 : specVideoText [[none], [some "A robin."]] = "A robin." := by decide
    rw [h2] at h
    exact h
  have hl : (bigStr 1000).length = 1000 := bigStr_length _
  refine ⟨by decide, by decide, hv, ?_⟩
  have h200 : (200 : Nat) = 200 := rfl
  simp only [Server.analyze_video, Server.videoParse, hv, pyStrip]
  have hp : falsyS "describe" = false := by decide
  have hb : falsyS (bigStr 1000) = false := falsyS_false_of_length (by omega)
  have h45n : ¬ (4500000 < (bigStr 1000).length) := by omega
  have h1kn : ¬ ((bigStr 1000).length < 1000) := by omega
  have hd : ¬ ("describe".length = 0) := by decide
  have hbl : ¬ ((bigStr 1000).length = 0) := by omega
  have hr : ¬ ("A robin.".length = 0) := by decide
  simp [hp, hb, h45n, h1kn, Server.cors, stripStr, isPyWS, falsyS, hd, hbl, hr]

/-- C8 amended: on every well-formed generation-API response, the
`.get`-chain extraction (app.py and index.py /generate and /analyze,
server.py /analyze-audio) and the guarded extraction (server.py
/generate) read ONLY the primary path `candidates[0].content.parts[0]`
and never scan further; only /analyze-video falls back, when the primary
text is absent or empty, to scanning the candidates for the first one
whose leading `"text"` entry is non-empty. -/
theorem c8_fallback_amended :
    ∀ cs : List (List (Option String)),
      chainTextVal (mkResp cs) = chainResult cs ∧
      extractPrimaryText (mkResp cs) = some (.jstr (primStr cs)) ∧
      extractVideoText (mkResp cs) = some (.jstr (specVideoText cs)) :=
  fun cs =>
    ⟨chainTextVal_mkResp cs, extractPrimaryText_mkResp cs, extractVideoText_mkResp cs⟩
